import Mathlib

/-!
Cre8ors deployment scripts: a shallow embedding of `scripts/deploy.mjs` and
`scripts/deploy/deployCre8ors.mjs`.

JavaScript values are a small data type, an `async` function is a state-passing
computation over the record of calls made to imported functions, `await f(..)`
is sequencing that propagates a rejection, and a promise that is created but
not awaited leaves its settlement in the record without affecting the caller.

Each module is embedded against its imports: `deployCre8ors` against
`retryDeploy` and `retryVerify` of `scripts/contract.mjs`, `setupContracts`
and `main` against the six step functions and `writeFile`. The module-level
statements (`dotenv.config`, the `esMain` guard around `await main()`) are not
part of any function and are not embedded.
-/

namespace Cre8orsDeploy

/-! ## Values -/

/-- JavaScript values as these scripts handle them: primitives, arrays and
plain data objects (ordered key/value lists). Numbers are the integers that
occur in the scripts. -/
inductive JsVal where
  | undefined : JsVal
  | null : JsVal
  | bool (b : Bool) : JsVal
  | num (n : Int) : JsVal
  | str (s : String) : JsVal
  | arr (xs : List JsVal) : JsVal
  | obj (props : List (String × JsVal)) : JsVal

/-- What a function can throw, or a promise reject with. -/
inductive Thrown where
  | typeError : Thrown
  | rejected (reason : JsVal) : Thrown

/-- Member access `v.k` for a property name `k` that no prototype defines
(the scripts read `deploy` and `deployedTo`): a `TypeError` on `undefined` and
`null`, the stored value on an object that has the key, `undefined` otherwise. -/
def getProp (v : JsVal) (k : String) : Except Thrown JsVal :=
  match v with
  | .undefined => .error .typeError
  | .null => .error .typeError
  | .obj props => .ok ((props.lookup k).getD .undefined)
  | _ => .ok .undefined

mutual
/-- ECMAScript `ToString`, as a template literal applies it to `${v}`. -/
def toStr : JsVal → String
  | .undefined => "undefined"
  | .null => "null"
  | .bool true => "true"
  | .bool false => "false"
  | .num n => toString n
  | .str s => s
  | .arr xs => joinElems xs
  | .obj _ => "[object Object]"
/-- `Array.prototype.join(",")`: `undefined` and `null` elements render as
the empty string, every other element by `ToString`. -/
def joinElems : List JsVal → String
  | [] => ""
  | [x] => elemStr x
  | x :: y :: rest => elemStr x ++ "," ++ joinElems (y :: rest)
/-- One element of a joined array. -/
def elemStr : JsVal → String
  | .undefined => ""
  | .null => ""
  | .bool true => "true"
  | .bool false => "false"
  | .num n => toString n
  | .str s => s
  | .arr xs => joinElems xs
  | .obj _ => "[object Object]"
end

/-! ## Calls to imported functions and the run record -/

/-- A call of an imported function: its name and the argument values. -/
structure Call where
  fn : String
  args : List JsVal

/-- A call together with the way its promise settled. -/
structure Event where
  call : Call
  outcome : Except Thrown JsVal

/-- Calls in the order they were made. -/
abbrev Trace := List Event

/-- Broken-down UTC time of a `Date`. -/
structure UtcTime where
  year : Int
  month : Nat
  day : Nat
  hour : Nat
  minute : Nat
  second : Nat
  ms : Nat

/-- Everything outside the scripts: how each imported function answers a call
(it may depend on the calls made before, so a flaky toolchain is covered), the
clock read by `new Date()`, `process.env.CHAIN` and `JSON.stringify(·, null, 2)`. -/
structure World where
  respond : Trace → Call → Except Thrown JsVal
  now : UtcTime
  chain : Option String
  stringify : JsVal → JsVal

/-- The record of a run: calls made and `console.log` lines written. -/
structure St where
  trace : Trace
  logs : List (List JsVal)

/-- The record before anything ran. -/
def St.init : St := ⟨[], []⟩

/-- An `async` function body: it reads the world, extends the record and
either returns or throws. -/
def Run (α : Type) : Type := World → St → Except Thrown α × St

/-- Return. -/
def Run.pure {α : Type} (a : α) : Run α := fun _ s => (.ok a, s)

/-- Sequencing: what follows a statement that threw is not executed. -/
def Run.bind {α β : Type} (x : Run α) (f : α → Run β) : Run β := fun w s =>
  match x w s with
  | (.ok a, s1) => f a w s1
  | (.error e, s1) => (.error e, s1)

instance : Monad Run where
  pure := Run.pure
  bind := Run.bind

/-- Use of an expression that may throw. -/
def Run.ofExcept {α : Type} (x : Except Thrown α) : Run α := fun _ s => (x, s)

/-- Read of the world. -/
def Run.world : Run World := fun w s => (.ok w, s)

/-- The statement `console.log(..)`. -/
def consoleLog (line : List JsVal) : Run Unit := fun _ s =>
  (.ok (), { s with logs := s.logs ++ [line] })

/-- The expression `await fn(..)` for an imported `fn`: the call is made and
recorded, its value is returned and its rejection is thrown. -/
def awaitCall (fn : String) (args : List JsVal) : Run JsVal := fun w s =>
  let r := w.respond s.trace ⟨fn, args⟩
  (r, { s with trace := s.trace ++ [⟨⟨fn, args⟩, r⟩] })

/-- The expression statement `fn(..)` for an imported promise-returning `fn`,
without `await`: the call is made and recorded, the promise is dropped, and
the caller goes on whatever the promise settles to. -/
def floatingCall (fn : String) (args : List JsVal) : Run Unit := fun w s =>
  let r := w.respond s.trace ⟨fn, args⟩
  (.ok (), { s with trace := s.trace ++ [⟨⟨fn, args⟩, r⟩] })

/-- The member chain `v.deploy.deployedTo`. -/
def deployedTo (v : JsVal) : Except Thrown JsVal :=
  match getProp v "deploy" with
  | .ok d => getProp d "deployedTo"
  | .error e => .error e

/-! ## Dates and strings -/

/-- Decimal digit of the units of `n`. -/
def digitChar (n : Nat) : Char := Char.ofNat (48 + n % 10)

/-- Two decimal digits, zero padded. -/
def pad2 (n : Nat) : List Char := [digitChar (n / 10), digitChar n]

/-- Three decimal digits, zero padded. -/
def pad3 (n : Nat) : List Char := digitChar (n / 100) :: pad2 n

/-- Four decimal digits, zero padded. -/
def pad4 (n : Nat) : List Char := digitChar (n / 1000) :: pad3 n

/-- Six decimal digits, zero padded. -/
def pad6 (n : Nat) : List Char := digitChar (n / 100000) :: digitChar (n / 10000) :: pad4 n

/-- The year of `Date.prototype.toISOString`: four digits for the years 0 to
9999, otherwise a sign and six digits. -/
def isoYear (y : Int) : List Char :=
  if 0 ≤ y ∧ y ≤ 9999 then pad4 y.toNat
  else (if y < 0 then '-' else '+') :: pad6 y.natAbs

/-- `Date.prototype.toISOString`: `YYYY-MM-DDTHH:mm:ss.sssZ`. -/
def toISOString (t : UtcTime) : String :=
  String.mk (isoYear t.year ++ '-' :: pad2 t.month ++ '-' :: pad2 t.day ++ 'T' :: pad2 t.hour
    ++ ':' :: pad2 t.minute ++ ':' :: pad2 t.second ++ '.' :: pad3 t.ms ++ ['Z'])

/-- `String.prototype.slice(start, end)` for `0 ≤ start ≤ end`. -/
def slice (s : String) (start stop : Nat) : String :=
  String.mk ((s.data.drop start).take (stop - start))

/-- A `process.env` entry inside a template literal: an unset variable reads
`undefined`. -/
def envStr : Option String → String
  | some v => v
  | none => "undefined"

/-! ## `scripts/deploy/deployCre8ors.mjs` -/

namespace Cre8ors

def contractName : String := "cre8ors"
def contractSymbol : String := "CRE8"
def _initialOwner : String := "0x4D977d9aEceC3776DD73F2f9080C9AF3BC31f505"
def _fundsRecipient : String := "0xcfBf34d385EA2d5Eb947063b67eA226dcDA3DC38"
def _editionSize : String := "8888"
def _royaltyBPS : String := "888"
def publicSalePrice : String := "150000000000000000"
def erc20PaymentToken : String := "0x0000000000000000000000000000000000000000"
def maxSalePurchasePerAddress : Int := 18
def presaleStart : String := "1691254500"
def presaleEnd : String := "18446744073709551615"
def publicSaleStart : String := "1691255100"
def publicSaleEnd : String := "18446744073709551615"
def _metadataRenderer : String := "0x209511E9fe3c526C61B7691B9308830C1d1612bE"
def contractLocation : String := "src/Cre8ors.sol:Cre8ors"

/-- The address literal in the `retryVerify` call. -/
def verifyAddress : String := "0xe05ae2fF6D24cfE14d62C72978f4e1eCf583e956"

/-- The template literal `_salesConfig`, `presaleMerkleRoot` being `root`. -/
def _salesConfig (root : JsVal) : String :=
  "\"(" ++ publicSalePrice ++ "," ++ erc20PaymentToken ++ "," ++
    toStr (.num maxSalePurchasePerAddress) ++ "," ++ publicSaleStart ++ "," ++ publicSaleEnd ++
    "," ++ presaleStart ++ "," ++ presaleEnd ++ "," ++ toStr root ++ ")\""

/-- The array `args`, passed to `retryDeploy`. -/
def args (root : JsVal) : List JsVal :=
  [.str contractName, .str contractSymbol, .str _initialOwner, .str _fundsRecipient,
    .str _editionSize, .str _royaltyBPS, .str (_salesConfig root), .str _metadataRenderer]

/-- The array `_salesConfig2`. -/
def _salesConfig2 (root : JsVal) : List JsVal :=
  [.str publicSalePrice, .str erc20PaymentToken, .num maxSalePurchasePerAddress,
    .str publicSaleStart, .str publicSaleEnd, .str presaleStart, .str presaleEnd, root]

/-- The array `args2`, passed to `retryVerify`. -/
def args2 (root : JsVal) : List JsVal :=
  [.str contractName, .str contractSymbol, .str _initialOwner, .str _fundsRecipient,
    .str _editionSize, .str _royaltyBPS, .arr (_salesConfig2 root), .str _metadataRenderer]

end Cre8ors

open Cre8ors in
/-- The function `deployCre8ors(root)`; `retryDeploy` and `retryVerify` are
imported from `../contract.mjs`. -/
def deployCre8ors (root : JsVal) : Run JsVal := do
  consoleLog [.str "deploying Cre8ors"]
  let dropContract ← awaitCall "retryDeploy" [.num 2, .str contractLocation, .arr (args root)]
  consoleLog [.str ("[deployed] " ++ contractLocation)]
  let _ ← awaitCall "retryVerify"
    [.num 2, .str verifyAddress, .str contractLocation, .arr (args2 root)]
  consoleLog [.str ("[verified] " ++ contractLocation)]
  let dropContractAddress ← Run.ofExcept (deployedTo dropContract)
  consoleLog [.str "deployed cre8ors to ", dropContractAddress]
  return dropContract

/-! ## `scripts/deploy.mjs` -/

/-- The constant `passportAddress` of `setupContracts`. -/
def passportAddress : String := "0x31E28672F704d6F8204e41Ec0B93EE2b1172558E"

/-- The function `setupContracts()`; the six step functions are imported from
the modules under `./deploy/`. -/
def setupContracts : Run JsVal := do
  consoleLog [.str "deploying..."]
  let cre8ors ← awaitCall "deployCre8ors" []
  let staking ← awaitCall "deployStaking" []
  let lockup ← awaitCall "deployLockup" []
  let minterUtilities ← awaitCall "deployMinterUtilities" [.str passportAddress]
  let a1 ← Run.ofExcept (deployedTo cre8ors)
  let a2 ← Run.ofExcept (deployedTo minterUtilities)
  let familyFriendsMinter ← awaitCall "deployFamilyAndFriendsMinter" [a1, a2]
  let b2 ← Run.ofExcept (deployedTo minterUtilities)
  let b3 ← Run.ofExcept (deployedTo familyFriendsMinter)
  let passportMinter ← awaitCall "deployPassportMinter" [.str passportAddress, b2, b3]
  return .obj [("cre8ors", cre8ors), ("lockup", lockup), ("staking", staking),
    ("minterUtilities", minterUtilities), ("familyFriendsMinter", familyFriendsMinter),
    ("passportMinter", passportMinter)]

/-- The template literal that is the first argument of `writeFile`. -/
def manifestPath (date : String) (chain : Option String) : String :=
  "./deployments/" ++ date ++ "." ++ envStr chain ++ ".json"

/-- The function `main()`. The call of `writeFile` (from `fs/promises`) is an
expression statement without `await`. -/
def main : Run Unit := do
  let output ← setupContracts
  let w ← Run.world
  let date := slice (toISOString w.now) 0 10
  floatingCall "writeFile" [.str (manifestPath date w.chain), w.stringify output]

/-- The calls of a run, in order. -/
def calls (s : St) : List Call := s.trace.map Event.call

/-- The names of the functions called in a run, in order. -/
def callNames (s : St) : List String := s.trace.map (fun ev => ev.call.fn)

/-- The settlements of the calls of a run, in order. -/
def outcomes (s : St) : List (Except Thrown JsVal) := s.trace.map Event.outcome

/-- The order in which `setupContracts` calls the step functions. -/
def stepOrder : List String :=
  ["deployCre8ors", "deployStaking", "deployLockup", "deployMinterUtilities",
    "deployFamilyAndFriendsMinter", "deployPassportMinter"]

/-- Whether a promise settled by fulfilling. -/
def fulfilled : Except Thrown JsVal → Bool
  | .ok _ => true
  | .error _ => false

/-! ## Sample worlds -/

/-- A deploy result as the toolchain reports it, with the deployed address. -/
def deployResult (addr : String) : JsVal :=
  .obj [("deploy", .obj [("deployedTo", .str addr)])]

/-- Sample deployed addresses, one per imported function. -/
def sampleAddress (fn : String) : String :=
  if fn = "deployCre8ors" then "0x5FbDB2315678afecb367f032d93F642f64180aa3"
  else if fn = "deployStaking" then "0xe7f1725E7734CE288F8367e1Bb143E90bb3F0512"
  else if fn = "deployLockup" then "0x9fE46736679d2D9a65F0992F2272dE9f3c7fa6e0"
  else if fn = "deployMinterUtilities" then "0xCf7Ed3AccA5a467e9e704C703E8D87F634fB0Fc9"
  else if fn = "deployFamilyAndFriendsMinter" then "0xDc64a140Aa3E981100a9becA4E685f962f0cF6C9"
  else if fn = "deployPassportMinter" then "0x5FC8d32690cc91D4c39d9d3abcBD16989F875707"
  else "0x0165878A594ca255338adfa4d48449f69242Eb8F"

/-- A world in which the imported functions named in `failing` reject and every
other one fulfils with a deploy result; the clock reads 2023-08-05T16:55:00.000Z
and `CHAIN` is `goerli`. -/
def World.scripted (failing : List String) : World where
  respond := fun _ c =>
    if failing.contains c.fn then .error (.rejected (.str (c.fn ++ " failed")))
    else .ok (deployResult (sampleAddress c.fn))
  now := ⟨2023, 8, 5, 16, 55, 0, 0⟩
  chain := some "goerli"
  stringify := fun v => .str (toStr v)

/-- A sample merkle root. -/
def sampleRoot : JsVal :=
  .str "0x36c161febf4b54734baf31a4d6b00da9f4a1cc6eeae64bb328e095b1ab00ec96"

/-! ## Theorems -/

/-- C1: in every run in which the six steps are called and all succeed,
`deployMinterUtilities` receives the fixed passport address,
`deployFamilyAndFriendsMinter` receives the `deploy.deployedTo` of the results
of `deployCre8ors` and `deployMinterUtilities`, and `deployPassportMinter`
receives the passport address and the `deploy.deployedTo` of the results of
`deployMinterUtilities` and `deployFamilyAndFriendsMinter`. -/
theorem setupContracts_threads_addresses (w : World) (c s l m f p : JsVal)
    (h : outcomes (setupContracts w St.init).2 = [.ok c, .ok s, .ok l, .ok m, .ok f, .ok p]) :
    ∃ cTo mTo fTo, deployedTo c = .ok cTo ∧ deployedTo m = .ok mTo ∧ deployedTo f = .ok fTo ∧
      calls (setupContracts w St.init).2 =
        [⟨"deployCre8ors", []⟩, ⟨"deployStaking", []⟩, ⟨"deployLockup", []⟩,
          ⟨"deployMinterUtilities", [.str "0x31E28672F704d6F8204e41Ec0B93EE2b1172558E"]⟩,
          ⟨"deployFamilyAndFriendsMinter", [cTo, mTo]⟩,
          ⟨"deployPassportMinter",
            [.str "0x31E28672F704d6F8204e41Ec0B93EE2b1172558E", mTo, fTo]⟩] := by
  generalize hr : setupContracts w St.init = r at h ⊢
  simp only [setupContracts, bind, Run.bind, awaitCall, consoleLog, Run.ofExcept, pure, Run.pure,
    St.init] at hr
  repeat' split at hr
  all_goals subst hr
  all_goals simp only [Prod.mk.injEq] at *
  all_goals casesm* _ ∧ _
  all_goals subst_vars
  all_goals simp_all [outcomes, calls, passportAddress]

/-- Witness for C1: the world in which every step fulfils. -/
theorem setupContracts_threads_addresses_witness :
    ∃ cTo mTo fTo,
      deployedTo (deployResult (sampleAddress "deployCre8ors")) = .ok cTo ∧
      deployedTo (deployResult (sampleAddress "deployMinterUtilities")) = .ok mTo ∧
      deployedTo (deployResult (sampleAddress "deployFamilyAndFriendsMinter")) = .ok fTo ∧
      calls (setupContracts (World.scripted []) St.init).2 =
        [⟨"deployCre8ors", []⟩, ⟨"deployStaking", []⟩, ⟨"deployLockup", []⟩,
          ⟨"deployMinterUtilities", [.str "0x31E28672F704d6F8204e41Ec0B93EE2b1172558E"]⟩,
          ⟨"deployFamilyAndFriendsMinter", [cTo, mTo]⟩,
          ⟨"deployPassportMinter",
            [.str "0x31E28672F704d6F8204e41Ec0B93EE2b1172558E", mTo, fTo]⟩] :=
  setupContracts_threads_addresses (World.scripted [])
    (deployResult (sampleAddress "deployCre8ors")) (deployResult (sampleAddress "deployStaking"))
    (deployResult (sampleAddress "deployLockup")) (deployResult (sampleAddress "deployMinterUtilities"))
    (deployResult (sampleAddress "deployFamilyAndFriendsMinter")) (deployResult (sampleAddress "deployPassportMinter")) rfl

/-- C8: in every run in which the six steps are called and all succeed,
`setupContracts` returns the object with exactly the keys `cre8ors`, `lockup`,
`staking`, `minterUtilities`, `familyFriendsMinter`, `passportMinter`, each
holding the unmodified result of the step of that name. -/
theorem setupContracts_manifest (w : World) (c s l m f p : JsVal)
    (h : outcomes (setupContracts w St.init).2 = [.ok c, .ok s, .ok l, .ok m, .ok f, .ok p]) :
    callNames (setupContracts w St.init).2 =
        ["deployCre8ors", "deployStaking", "deployLockup", "deployMinterUtilities",
          "deployFamilyAndFriendsMinter", "deployPassportMinter"] ∧
      (setupContracts w St.init).1 =
        .ok (.obj [("cre8ors", c), ("lockup", l), ("staking", s), ("minterUtilities", m),
          ("familyFriendsMinter", f), ("passportMinter", p)]) := by
  generalize hr : setupContracts w St.init = r at h ⊢
  simp only [setupContracts, bind, Run.bind, awaitCall, consoleLog, Run.ofExcept, pure, Run.pure,
    St.init] at hr
  repeat' split at hr
  all_goals subst hr
  all_goals simp only [Prod.mk.injEq] at *
  all_goals casesm* _ ∧ _
  all_goals subst_vars
  all_goals simp_all [outcomes, callNames]

/-- Witness for C8: the world in which every step fulfils. -/
theorem setupContracts_manifest_witness :
    callNames (setupContracts (World.scripted []) St.init).2 =
        ["deployCre8ors", "deployStaking", "deployLockup", "deployMinterUtilities",
          "deployFamilyAndFriendsMinter", "deployPassportMinter"] ∧
      (setupContracts (World.scripted []) St.init).1 =
        .ok (.obj [("cre8ors", deployResult (sampleAddress "deployCre8ors")),
          ("lockup", deployResult (sampleAddress "deployLockup")),
          ("staking", deployResult (sampleAddress "deployStaking")),
          ("minterUtilities", deployResult (sampleAddress "deployMinterUtilities")),
          ("familyFriendsMinter", deployResult (sampleAddress "deployFamilyAndFriendsMinter")),
          ("passportMinter", deployResult (sampleAddress "deployPassportMinter"))]) :=
  setupContracts_manifest (World.scripted []) _ _ _ _ _ _ rfl

/-- C9: in every run of `setupContracts` the names of the functions called are
an initial segment of the fixed order (so each step is called at most once),
and every call but the last one made had fulfilled when the next was made. -/
theorem setupContracts_call_order (w : World) :
    callNames (setupContracts w St.init).2 =
        stepOrder.take (setupContracts w St.init).2.trace.length ∧
      (callNames (setupContracts w St.init).2).Nodup ∧
      (outcomes (setupContracts w St.init).2).dropLast.all fulfilled = true := by
  generalize hr : setupContracts w St.init = r
  simp only [setupContracts, bind, Run.bind, awaitCall, consoleLog, Run.ofExcept, pure, Run.pure,
    St.init] at hr
  repeat' split at hr
  all_goals subst hr
  all_goals simp only [Prod.mk.injEq] at *
  all_goals casesm* _ ∧ _
  all_goals subst_vars
  all_goals simp_all [outcomes, callNames, stepOrder, fulfilled]

/-- The function `main` in terms of the run of `setupContracts`. -/
theorem main_eq (w : World) (s : St) :
    main w s =
      match setupContracts w s with
      | (.ok output, s1) =>
        floatingCall "writeFile"
          [.str (manifestPath (slice (toISOString w.now) 0 10) w.chain), w.stringify output] w s1
      | (.error e, s1) => (.error e, s1) := by
  simp only [main, bind, Run.bind, Run.world]
  rcases setupContracts w s with ⟨r, s1⟩
  cases r <;> rfl

/-- C2: in every run in which a step fails with `e`, `setupContracts` fails
with `e`, the failed call is the last call made (the calls are the initial
segment of the fixed order that ends with it), `main` fails with `e` and
`writeFile` is not called. -/
theorem setupContracts_fail_fast (w : World) (e : Thrown)
    (h : .error e ∈ outcomes (setupContracts w St.init).2) :
    (setupContracts w St.init).1 = .error e ∧
      (outcomes (setupContracts w St.init).2).getLast? = some (.error e) ∧
      callNames (setupContracts w St.init).2 =
        stepOrder.take (setupContracts w St.init).2.trace.length ∧
      (main w St.init).1 = .error e ∧
      "writeFile" ∉ callNames (main w St.init).2 := by
  rw [main_eq]
  generalize hr : setupContracts w St.init = r at h ⊢
  simp only [setupContracts, bind, Run.bind, awaitCall, consoleLog, Run.ofExcept, pure, Run.pure,
    St.init] at hr
  repeat' split at hr
  all_goals subst hr
  all_goals simp only [Prod.mk.injEq] at *
  all_goals casesm* _ ∧ _
  all_goals subst_vars
  all_goals simp_all [outcomes, callNames, stepOrder]

/-- Witness for C2: the world in which `deployLockup` rejects. -/
theorem setupContracts_fail_fast_witness :
    (setupContracts (World.scripted ["deployLockup"]) St.init).1 =
        .error (.rejected (.str "deployLockup failed")) ∧
      (outcomes (setupContracts (World.scripted ["deployLockup"]) St.init).2).getLast? =
        some (.error (.rejected (.str "deployLockup failed"))) ∧
      callNames (setupContracts (World.scripted ["deployLockup"]) St.init).2 =
        stepOrder.take (setupContracts (World.scripted ["deployLockup"]) St.init).2.trace.length ∧
      (main (World.scripted ["deployLockup"]) St.init).1 =
        .error (.rejected (.str "deployLockup failed")) ∧
      "writeFile" ∉ callNames (main (World.scripted ["deployLockup"]) St.init).2 :=
  setupContracts_fail_fast (World.scripted ["deployLockup"])
    (.rejected (.str "deployLockup failed"))
    (by
      rw [show outcomes (setupContracts (World.scripted ["deployLockup"]) St.init).2 =
        [.ok (deployResult (sampleAddress "deployCre8ors")), .ok (deployResult (sampleAddress "deployStaking")),
          .error (.rejected (.str "deployLockup failed"))] from rfl]
      simp)

/-- C4: whenever the `retryDeploy` call fails with `e`, `deployCre8ors` fails
with `e`, the only call made is `retryDeploy` with attempt budget 2, and
`retryVerify` is not called. -/
theorem deployCre8ors_deploy_failure (w : World) (root : JsVal) (e : Thrown)
    (h : (outcomes (deployCre8ors root w St.init).2).head? = some (.error e)) :
    (deployCre8ors root w St.init).1 = .error e ∧
      calls (deployCre8ors root w St.init).2 =
        [⟨"retryDeploy", [.num 2, .str "src/Cre8ors.sol:Cre8ors", .arr (Cre8ors.args root)]⟩] ∧
      "retryVerify" ∉ callNames (deployCre8ors root w St.init).2 := by
  generalize hr : deployCre8ors root w St.init = r at h ⊢
  simp only [deployCre8ors, bind, Run.bind, awaitCall, consoleLog, Run.ofExcept, pure, Run.pure,
    St.init] at hr
  repeat' split at hr
  all_goals subst hr
  all_goals simp only [Prod.mk.injEq] at *
  all_goals casesm* _ ∧ _
  all_goals subst_vars
  all_goals simp_all [outcomes, calls, callNames, Cre8ors.contractLocation]

/-- Witness for C4: the world in which `retryDeploy` rejects. -/
theorem deployCre8ors_deploy_failure_witness :
    (deployCre8ors sampleRoot (World.scripted ["retryDeploy"]) St.init).1 =
        .error (.rejected (.str "retryDeploy failed")) ∧
      calls (deployCre8ors sampleRoot (World.scripted ["retryDeploy"]) St.init).2 =
        [⟨"retryDeploy",
          [.num 2, .str "src/Cre8ors.sol:Cre8ors", .arr (Cre8ors.args sampleRoot)]⟩] ∧
      "retryVerify" ∉ callNames (deployCre8ors sampleRoot (World.scripted ["retryDeploy"]) St.init).2 :=
  deployCre8ors_deploy_failure (World.scripted ["retryDeploy"]) sampleRoot
    (.rejected (.str "retryDeploy failed")) rfl

/-- C3, as the claim states it, fails: `retryDeploy` fulfils with a deploy
result, `retryVerify` rejects, and `deployCre8ors` rejects with the
verification failure instead of returning the deploy result. -/
theorem deployCre8ors_verify_failure_aborts :
    outcomes (deployCre8ors sampleRoot (World.scripted ["retryVerify"]) St.init).2 =
        [.ok (deployResult "0x0165878A594ca255338adfa4d48449f69242Eb8F"),
          .error (.rejected (.str "retryVerify failed"))] ∧
      (deployCre8ors sampleRoot (World.scripted ["retryVerify"]) St.init).1 =
        .error (.rejected (.str "retryVerify failed")) ∧
      (deployCre8ors sampleRoot (World.scripted ["retryVerify"]) St.init).1 ≠
        .ok (deployResult "0x0165878A594ca255338adfa4d48449f69242Eb8F") :=
  ⟨rfl, rfl, nofun⟩

/-- C3, amended: once `retryDeploy` has fulfilled with `d`, the outcome of
`deployCre8ors` follows the `retryVerify` call: if it rejects with `e`,
`deployCre8ors` rejects with `e`; if it fulfils, `deployCre8ors` returns `d`
unchanged, provided `d.deploy.deployedTo` can be read. -/
theorem deployCre8ors_after_deploy (w : World) (root d : JsVal) (r : Except Thrown JsVal)
    (h : outcomes (deployCre8ors root w St.init).2 = [.ok d, r]) :
    (∀ e, r = .error e → (deployCre8ors root w St.init).1 = .error e) ∧
      (∀ v a, r = .ok v → deployedTo d = .ok a → (deployCre8ors root w St.init).1 = .ok d) ∧
      (∀ v e, r = .ok v → deployedTo d = .error e →
        (deployCre8ors root w St.init).1 = .error e) := by
  cases r
  all_goals generalize hr : deployCre8ors root w St.init = x at h ⊢
  all_goals simp only [deployCre8ors, bind, Run.bind, awaitCall, consoleLog, Run.ofExcept, pure,
    Run.pure, St.init] at hr
  all_goals repeat' split at hr
  all_goals subst hr
  all_goals simp only [Prod.mk.injEq] at *
  all_goals casesm* _ ∧ _
  all_goals subst_vars
  all_goals simp_all [outcomes]

/-- Witness for the amended C3: the world in which `retryVerify` rejects. -/
theorem deployCre8ors_after_deploy_witness :
    (deployCre8ors sampleRoot (World.scripted ["retryVerify"]) St.init).1 =
      .error (.rejected (.str "retryVerify failed")) :=
  (deployCre8ors_after_deploy (World.scripted ["retryVerify"]) sampleRoot
    (deployResult "0x0165878A594ca255338adfa4d48449f69242Eb8F")
    (.error (.rejected (.str "retryVerify failed"))) rfl).1 _ rfl

/-- C5, evaluated where every toolchain call fulfils: the deploy result carries
the address `0x0165…Eb8F`, and the `retryVerify` call is made with budget 2 and
the address literal `0xe05a…e956`, which is a different address. -/
theorem deployCre8ors_verifies_fixed_address :
    (outcomes (deployCre8ors sampleRoot (World.scripted []) St.init).2).head? =
        some (.ok (deployResult "0x0165878A594ca255338adfa4d48449f69242Eb8F")) ∧
      deployedTo (deployResult "0x0165878A594ca255338adfa4d48449f69242Eb8F") =
        .ok (.str "0x0165878A594ca255338adfa4d48449f69242Eb8F") ∧
      calls (deployCre8ors sampleRoot (World.scripted []) St.init).2 =
        [⟨"retryDeploy",
            [.num 2, .str "src/Cre8ors.sol:Cre8ors", .arr (Cre8ors.args sampleRoot)]⟩,
          ⟨"retryVerify",
            [.num 2, .str "0xe05ae2fF6D24cfE14d62C72978f4e1eCf583e956",
              .str "src/Cre8ors.sol:Cre8ors", .arr (Cre8ors.args2 sampleRoot)]⟩] ∧
      "0xe05ae2fF6D24cfE14d62C72978f4e1eCf583e956" ≠
        "0x0165878A594ca255338adfa4d48449f69242Eb8F" :=
  ⟨rfl, rfl, rfl, by decide⟩

/-- C6, evaluated where every step fulfils and `writeFile` rejects: `main`
completes normally although the write of the manifest failed. -/
theorem main_ignores_write_failure :
    callNames (main (World.scripted ["writeFile"]) St.init).2 = stepOrder ++ ["writeFile"] ∧
      (outcomes (main (World.scripted ["writeFile"]) St.init).2).getLast? =
        some (.error (.rejected (.str "writeFile failed"))) ∧
      (main (World.scripted ["writeFile"]) St.init).1 = .ok () :=
  ⟨rfl, rfl, rfl⟩

/-- C7: for a clock whose year is between 0 and 9999 and `CHAIN` set to `n`,
whenever `setupContracts` returns, `main` calls `writeFile` once, after the
step calls, with the path `./deployments/` followed by the ten characters
`YYYY-MM-DD` of the clock, `.`, `n` and `.json`; the path is determined by the
year, month and day of the clock and by `n` alone. -/
theorem main_manifest_path (w : World) (n : String) (output : JsVal)
    (hy0 : 0 ≤ w.now.year) (hy1 : w.now.year ≤ 9999) (hn : w.chain = some n)
    (hs : (setupContracts w St.init).1 = .ok output) :
    (pad4 w.now.year.toNat ++ '-' :: pad2 w.now.month ++ '-' :: pad2 w.now.day).length = 10 ∧
      calls (main w St.init).2 = calls (setupContracts w St.init).2 ++
        [⟨"writeFile",
          [.str ("./deployments/" ++
              String.mk (pad4 w.now.year.toNat ++ '-' :: pad2 w.now.month ++ '-' :: pad2 w.now.day)
              ++ "." ++ n ++ ".json"),
            w.stringify output]⟩] := by
  refine ⟨by simp [pad4, pad3, pad2], ?_⟩
  have hd : slice (toISOString w.now) 0 10 =
      String.mk (pad4 w.now.year.toNat ++ '-' :: pad2 w.now.month ++ '-' :: pad2 w.now.day) := by
    simp [slice, toISOString, isoYear, hy0, hy1, pad4, pad3, pad2]
  rw [main_eq, hd, hn]
  rcases hr : setupContracts w St.init with ⟨r, s1⟩
  rw [hr] at hs
  simp only at hs
  subst hs
  simp [floatingCall, calls, manifestPath, envStr]

/-- Witness for C7: on 2023-08-05 with `CHAIN=goerli` the manifest goes to
`./deployments/2023-08-05.goerli.json`. -/
theorem main_manifest_path_witness :
    (calls (main (World.scripted []) St.init).2).getLast? =
      some ⟨"writeFile", [.str "./deployments/2023-08-05.goerli.json",
        (World.scripted []).stringify (.obj [
          ("cre8ors", deployResult "0x5FbDB2315678afecb367f032d93F642f64180aa3"),
          ("lockup", deployResult "0x9fE46736679d2D9a65F0992F2272dE9f3c7fa6e0"),
          ("staking", deployResult "0xe7f1725E7734CE288F8367e1Bb143E90bb3F0512"),
          ("minterUtilities", deployResult "0xCf7Ed3AccA5a467e9e704C703E8D87F634fB0Fc9"),
          ("familyFriendsMinter", deployResult "0xDc64a140Aa3E981100a9becA4E685f962f0cF6C9"),
          ("passportMinter", deployResult "0x5FC8d32690cc91D4c39d9d3abcBD16989F875707")])]⟩ := by
  have h := (main_manifest_path (World.scripted []) "goerli" _ (by decide) (by decide) rfl rfl).2
  rw [h]
  rfl

/-- C10: for a merkle root string `r`, when the deploy call returns, the
argument arrays of the `retryDeploy` and `retryVerify` calls both have 8
entries and agree outside index 6; at index 6 the verify array holds an array
of 8 elements and the deploy array holds the string made of a double quote,
`(`, those 8 elements as text joined by `,`, `)` and a double quote. -/
theorem deployCre8ors_args_encodings (w : World) (r : String) (d : JsVal)
    (h : (outcomes (deployCre8ors (.str r) w St.init).2).head? = some (.ok d)) :
    ∃ A B S,
      calls (deployCre8ors (.str r) w St.init).2 =
        [⟨"retryDeploy", [.num 2, .str "src/Cre8ors.sol:Cre8ors", .arr A]⟩,
          ⟨"retryVerify", [.num 2, .str "0xe05ae2fF6D24cfE14d62C72978f4e1eCf583e956",
            .str "src/Cre8ors.sol:Cre8ors", .arr B]⟩] ∧
      A.length = 8 ∧ B.length = 8 ∧ A.eraseIdx 6 = B.eraseIdx 6 ∧
      B[6]? = some (.arr S) ∧ S.length = 8 ∧
      A[6]? = some (.str ("\"(" ++ ",".intercalate (S.map toStr) ++ ")\"")) := by
  refine ⟨Cre8ors.args (.str r), Cre8ors.args2 (.str r), Cre8ors._salesConfig2 (.str r), ?_,
    rfl, rfl, rfl, rfl, rfl, ?_⟩
  · generalize hr : deployCre8ors (.str r) w St.init = x at h ⊢
    simp only [deployCre8ors, bind, Run.bind, awaitCall, consoleLog, Run.ofExcept, pure, Run.pure,
      St.init] at hr
    repeat' split at hr
    all_goals subst hr
    all_goals simp only [Prod.mk.injEq] at *
    all_goals casesm* _ ∧ _
    all_goals subst_vars
    all_goals simp_all [outcomes, calls, Cre8ors.contractLocation, Cre8ors.verifyAddress]
  · simp [Cre8ors.args, Cre8ors._salesConfig, Cre8ors._salesConfig2, toStr, String.intercalate,
      String.intercalate.go, String.append_assoc]

/-- Witness for C10: the sample root in the world in which every call fulfils. -/
theorem deployCre8ors_args_encodings_witness :
    ∃ A B S,
      calls (deployCre8ors sampleRoot (World.scripted []) St.init).2 =
        [⟨"retryDeploy", [.num 2, .str "src/Cre8ors.sol:Cre8ors", .arr A]⟩,
          ⟨"retryVerify", [.num 2, .str "0xe05ae2fF6D24cfE14d62C72978f4e1eCf583e956",
            .str "src/Cre8ors.sol:Cre8ors", .arr B]⟩] ∧
      A.length = 8 ∧ B.length = 8 ∧ A.eraseIdx 6 = B.eraseIdx 6 ∧
      B[6]? = some (.arr S) ∧ S.length = 8 ∧
      A[6]? = some (.str ("\"(" ++ ",".intercalate (S.map toStr) ++ ")\"")) :=
  deployCre8ors_args_encodings (World.scripted [])
    "0x36c161febf4b54734baf31a4d6b00da9f4a1cc6eeae64bb328e095b1ab00ec96"
    (deployResult "0x0165878A594ca255338adfa4d48449f69242Eb8F") rfl

end Cre8orsDeploy
